import Mathlib

/-
Verification of the asynchronous moderation pipeline of the
backend_homeworks repository (part4/part5): task enqueueing, the
moderation worker's consume-score-persist-cache cycle with its
retry/dead-letter policy, and the three cache keyspaces.

The Python source is shallowly embedded: database tables become lists of
rows, the Redis cache becomes an association list, Kafka topics become
message lists, and each handler/worker function becomes a pure state
transformer that additionally records a trace of observable events
(connection acquire/release, fetch, scoring attempts, sleeps, database
updates, cache writes/deletes, publishes).  Probabilities are modelled
as rationals.
-/

namespace Moderation

/-! ## Data model (repositories/ads.py, repositories/moderation.py) -/

/-- Row of the `ads` table (repositories/ads.py, dataclass `Ad`). -/
structure Ad where
  id : Int
  seller_id : Int
  name : String
  description : String
  category : Int
  images_qty : Int
  is_closed : Bool
  created_at : Nat
  deriving DecidableEq, Repr

/-- Row of the `users` table, the fields the join uses. -/
structure User where
  id : Int
  is_verified : Bool
  deriving DecidableEq, Repr

/-- Result of `get_ad_with_seller` (dataclass `AdWithSeller`). -/
structure AdWithSeller where
  ad_id : Int
  seller_id : Int
  name : String
  description : String
  category : Int
  images_qty : Int
  is_verified_seller : Bool
  deriving DecidableEq, Repr

/-- Row of `moderation_results` (dataclass `ModerationResult`).
`status` is one of "pending" / "completed" / "failed" as in the source;
timestamps are abstract naturals. -/
structure ModerationResult where
  id : Int
  item_id : Int
  status : String
  is_violation : Option Bool
  probability : Option Rat
  error_message : Option String
  created_at : Nat
  processed_at : Option Nat
  deriving DecidableEq, Repr

/-- Tables read by the worker and the routes: `ads` joined with `users`. -/
structure AdsDb where
  ads : List Ad
  users : List User
  deriving DecidableEq, Repr

/-- SELECT ... FROM ads WHERE id = $1 (repositories/ads.py, get_ad_by_id). -/
def get_ad_by_id (d : AdsDb) (ad_id : Int) : Option Ad :=
  d.ads.find? (fun a => a.id = ad_id)

/-- SELECT a.*, u.is_verified FROM ads a INNER JOIN users u ON
a.seller_id = u.id WHERE a.id = $1 (repositories/ads.py,
get_ad_with_seller).  Note: the query does not filter on `is_closed`. -/
def get_ad_with_seller (d : AdsDb) (ad_id : Int) : Option AdWithSeller :=
  match d.ads.find? (fun a => a.id = ad_id) with
  | none => none
  | some a =>
    match d.users.find? (fun u => u.id = a.seller_id) with
    | none => none
    | some u =>
      some ⟨a.id, a.seller_id, a.name, a.description, a.category,
            a.images_qty, u.is_verified⟩

/-- UPDATE ads SET is_closed = TRUE WHERE id = $1 AND is_closed = FALSE
RETURNING ... (repositories/ads.py, close_ad).  Returns the updated
table and the RETURNING row (none when no row matched). -/
def close_ad (d : AdsDb) (ad_id : Int) : AdsDb × Option Ad :=
  match d.ads.find? (fun a => a.id = ad_id && !a.is_closed) with
  | none => (d, none)
  | some a =>
    ({ d with ads := d.ads.map (fun b =>
        if b.id = ad_id && !b.is_closed then { b with is_closed := true } else b) },
     some { a with is_closed := true })

/-- INSERT INTO moderation_results (item_id, status) VALUES ($1, 'pending')
RETURNING ... (repositories/moderation.py, create_moderation_request).
`next_id` models the id assigned by the store's sequence. -/
def create_moderation_request (rows : List ModerationResult) (next_id : Int)
    (item_id : Int) (now : Nat) : List ModerationResult × ModerationResult :=
  let r : ModerationResult :=
    ⟨next_id, item_id, "pending", none, none, none, now, none⟩
  (rows ++ [r], r)

/-- Field update applied by `update_moderation_completed`: the SQL SET
clause writes status, is_violation, probability and processed_at. -/
def setCompleted (r : ModerationResult) (iv : Bool) (p : Rat) (now : Nat) :
    ModerationResult :=
  { r with status := "completed", is_violation := some iv,
           probability := some p, processed_at := some now }

/-- UPDATE moderation_results SET status = 'completed', is_violation = $2,
probability = $3, processed_at = NOW() WHERE id = $1 RETURNING ...
(repositories/moderation.py).  The WHERE clause matches on id only:
there is no guard on the current status. -/
def update_moderation_completed (rows : List ModerationResult)
    (moderation_id : Int) (iv : Bool) (p : Rat) (now : Nat) :
    List ModerationResult × Option ModerationResult :=
  (rows.map (fun r => if r.id = moderation_id then setCompleted r iv p now else r),
   (rows.find? (fun r => r.id = moderation_id)).map
     (fun r => setCompleted r iv p now))

/-- Field update applied by `update_moderation_failed`: the SQL SET clause
writes status, error_message and processed_at; it does not touch
is_violation or probability. -/
def setFailed (r : ModerationResult) (msg : String) (now : Nat) :
    ModerationResult :=
  { r with status := "failed", error_message := some msg,
           processed_at := some now }

/-- UPDATE moderation_results SET status = 'failed', error_message = $2,
processed_at = NOW() WHERE id = $1 RETURNING ... (repositories/moderation.py).
Again no guard on the current status. -/
def update_moderation_failed (rows : List ModerationResult)
    (moderation_id : Int) (msg : String) (now : Nat) :
    List ModerationResult × Option ModerationResult :=
  (rows.map (fun r => if r.id = moderation_id then setFailed r msg now else r),
   (rows.find? (fun r => r.id = moderation_id)).map (fun r => setFailed r msg now))

/-- SELECT ... FROM moderation_results WHERE id = $1
(repositories/moderation.py, get_moderation_by_id). -/
def get_moderation_by_id (rows : List ModerationResult) (moderation_id : Int) :
    Option ModerationResult :=
  rows.find? (fun r => r.id = moderation_id)

/-- Modelled from the spec: `deleteTasksByListing(listingId) -> [taskId]`
(spec section 6); part5's `repositories/moderation.py` with
`delete_moderation_by_item` is not among the provided sources, only its
callers and tests are.  Per the spec it deletes every ModerationTask row
for the listing and returns the collected ids. -/
def delete_moderation_by_item (rows : List ModerationResult) (item_id : Int) :
    List ModerationResult × List Int :=
  (rows.filter (fun r => r.item_id ≠ item_id),
   (rows.filter (fun r => r.item_id = item_id)).map (fun r => r.id))

/-! ## Redis client (clients/redis.py) and cache entries -/

/-- Structured cache payload, as stored by storages/predict_cache.py.
`prediction` is the dict written by set_by_item / set_by_features;
`moderation` is the dict written by set_moderation. -/
inductive CacheEntry where
  | prediction (is_valid : Bool) (probability : Rat)
  | moderation (task_id : Int) (status : String)
      (is_violation : Option Bool) (probability : Option Rat)
  deriving DecidableEq, Repr

/-- One stored key: value plus the TTL passed to redis SET. -/
structure CacheCell where
  key : String
  val : CacheEntry
  ttl : Nat
  deriving DecidableEq, Repr

/-- Redis keyspace as an association list, newest binding first. -/
abbrev Cache := List CacheCell

/-- SET key value EX ttl: overwrites any previous binding of the key. -/
def cacheSet (c : Cache) (k : String) (v : CacheEntry) (ttl : Nat) : Cache :=
  ⟨k, v, ttl⟩ :: c.filter (fun cell => cell.key ≠ k)

/-- GET key at the structured-payload level (clients/redis.py get after a
successful json.loads). -/
def cacheGet (c : Cache) (k : String) : Option CacheEntry :=
  (c.find? (fun cell => cell.key = k)).map (fun cell => cell.val)

/-- DEL key (clients/redis.py delete). -/
def cacheDelete (c : Cache) (k : String) : Cache :=
  c.filter (fun cell => cell.key ≠ k)

/-- RedisClient.get at the raw-string level (clients/redis.py lines 51-55):
`raw = await self.client.get(key); if raw is None: return None;
return json.loads(raw)`.  `loads` stands for `json.loads`, which raises on
malformed input; the method body contains no exception handler, so a
deserialization error propagates to the caller (`Except.error`). -/
def RedisClient.get {J : Type} (loads : String → Except String J)
    (store : String → Option String) (key : String) :
    Except String (Option J) :=
  match store key with
  | none => Except.ok none
  | some raw =>
    match loads raw with
    | Except.error e => Except.error e
    | Except.ok v => Except.ok (some v)

/-! ## Observable events

Each embedded handler returns, besides its result and the next state, the
ordered trace of its externally observable actions.  Connection ids in
`connAcquire`/`connRelease` identify the `async with get_pg_connection()`
scope that produced them. -/

inductive Event where
  | connAcquire (cid : Nat)
  | connRelease (cid : Nat)
  | fetch (item_id : Int)
  | score (attempt : Nat)
  | sleep (seconds : Nat)
  | dbCompleted (task_id : Int)
  | dbFailed (task_id : Int)
  | dbInsertPending (task_id : Int)
  | cacheWrite (key : String)
  | cacheDel (key : String)
  | publishIntake (task_id : Int)
  | dlqSend (retry_count : Nat)
  deriving DecidableEq, Repr

/-! ## Prediction cache storage (storages/predict_cache.py) -/

def PREDICT_BY_ITEM_TTL : Nat := 60 * 10

def PREDICT_BY_FEATURES_TTL : Nat := 60 * 60

def MODERATION_RESULT_TTL : Nat := 60 * 30

/-- Key "predict:item:{item_id}". -/
def item_predict_key (item_id : Int) : String :=
  "predict:item:" ++ toString item_id

/-- Key "predict:features:{int(verified)}:{images_qty}:{description_length}:{category}". -/
def features_predict_key (is_verified_seller : Bool) (images_qty : Int)
    (description_length : Nat) (category : Int) : String :=
  "predict:features:" ++ toString (if is_verified_seller then (1 : Nat) else 0)
    ++ ":" ++ toString images_qty ++ ":" ++ toString description_length
    ++ ":" ++ toString category

/-- Key "moderation:result:{task_id}". -/
def moderation_key (task_id : Int) : String :=
  "moderation:result:" ++ toString task_id

/-- CachedPrediction dataclass. -/
structure CachedPrediction where
  is_valid : Bool
  probability : Rat
  deriving DecidableEq, Repr

/-- PredictCacheStorage.get_by_item. -/
def get_by_item (c : Cache) (item_id : Int) : Option CachedPrediction :=
  match cacheGet c (item_predict_key item_id) with
  | some (CacheEntry.prediction v p) => some ⟨v, p⟩
  | _ => none

/-- PredictCacheStorage.set_by_item. -/
def set_by_item (c : Cache) (item_id : Int) (is_valid : Bool)
    (probability : Rat) : Cache × List Event :=
  (cacheSet c (item_predict_key item_id)
    (CacheEntry.prediction is_valid probability) PREDICT_BY_ITEM_TTL,
   [Event.cacheWrite (item_predict_key item_id)])

/-- PredictCacheStorage.invalidate_by_item. -/
def invalidate_by_item (c : Cache) (item_id : Int) : Cache × List Event :=
  (cacheDelete c (item_predict_key item_id),
   [Event.cacheDel (item_predict_key item_id)])

/-- PredictCacheStorage.get_by_features: the key hashes the description
length, not its content. -/
def get_by_features (c : Cache) (is_verified_seller : Bool) (images_qty : Int)
    (description : String) (category : Int) : Option CachedPrediction :=
  match cacheGet c (features_predict_key is_verified_seller images_qty
      description.length category) with
  | some (CacheEntry.prediction v p) => some ⟨v, p⟩
  | _ => none

/-- PredictCacheStorage.set_by_features. -/
def set_by_features (c : Cache) (is_valid : Bool) (probability : Rat)
    (is_verified_seller : Bool) (images_qty : Int) (description : String)
    (category : Int) : Cache × List Event :=
  let k := features_predict_key is_verified_seller images_qty
      description.length category
  (cacheSet c k (CacheEntry.prediction is_valid probability)
    PREDICT_BY_FEATURES_TTL, [Event.cacheWrite k])

/-- PredictCacheStorage.get_moderation. -/
def get_moderation (c : Cache) (task_id : Int) : Option CacheEntry :=
  cacheGet c (moderation_key task_id)

/-- PredictCacheStorage.set_moderation: returns immediately when
status == "pending"; otherwise stores the moderation record. -/
def set_moderation (c : Cache) (task_id : Int) (status : String)
    (is_violation : Option Bool) (probability : Option Rat) :
    Cache × List Event :=
  if status = "pending" then (c, [])
  else
    (cacheSet c (moderation_key task_id)
      (CacheEntry.moderation task_id status is_violation probability)
      MODERATION_RESULT_TTL,
     [Event.cacheWrite (moderation_key task_id)])

/-- PredictCacheStorage.invalidate_moderation. -/
def invalidate_moderation (c : Cache) (task_id : Int) : Cache × List Event :=
  (cacheDelete c (moderation_key task_id),
   [Event.cacheDel (moderation_key task_id)])

/-! ## Scoring service (services/predict_service.py) -/

/-- to_features: [1.0 if verified else 0.0, images_qty/10, len(description)/1000,
category/100], one feature row. -/
def to_features (is_verified_seller : Bool) (images_qty : Int)
    (description : String) (category : Int) : List Rat :=
  [if is_verified_seller then 1 else 0,
   (images_qty : Rat) / 10,
   (description.length : Rat) / 1000,
   (category : Rat) / 100]

/-- Opaque scoring engine: `model.predict_proba(X)[0][1]` is modelled as a
function from the feature row to the positive-class probability, failing
with the engine's internal error. -/
def Engine : Type := List Rat → Except String Rat

/-- predict_validity (services/predict_service.py): builds the feature
vector, asks the engine for the probability and derives
`is_valid = proba >= 0.5`.  An engine exception is caught and re-raised as
PredictionError("Prediction failed"). -/
def predict_validity (model : Engine) (seller_id item_id : Int)
    (is_verified_seller : Bool) (images_qty : Int) (description : String)
    (category : Int) : Except String (Bool × Rat) :=
  let _ := seller_id
  let _ := item_id
  let X := to_features is_verified_seller images_qty description category
  match model X with
  | Except.error _ => Except.error "Prediction failed"
  | Except.ok proba => Except.ok (decide ((1 : Rat)/2 ≤ proba), proba)

/-! ## Kafka messages (clients/kafka.py) -/

/-- Message on the task-intake topic "moderation".  The producer's
send_moderation_request serializes the dict
`\x7b"task_id", "item_id", "timestamp"\x7d`; `retry_count` models the
optional "retry_count" key, which the worker reads with
`message_value.get("retry_count", 0)` and rewrites on retries. -/
structure KafkaMessage where
  task_id : Int
  item_id : Int
  retry_count : Option Nat
  timestamp : Nat
  deriving DecidableEq, Repr

/-- Message on the dead-letter topic "moderation_dlq"
(KafkaProducerClient.send_to_dlq). -/
structure DlqMessage where
  original_message : KafkaMessage
  error : String
  timestamp : Nat
  retry_count : Nat
  deriving DecidableEq, Repr

/-- KafkaProducerClient.send_moderation_request: the published dict has
exactly the keys task_id, item_id and timestamp - no retry_count. -/
def send_moderation_request (topic : List KafkaMessage) (item_id task_id : Int)
    (now : Nat) : List KafkaMessage × KafkaMessage :=
  let message : KafkaMessage :=
    { task_id := task_id, item_id := item_id, retry_count := none,
      timestamp := now }
  (topic ++ [message], message)

/-! ## System state -/

/-- Durable and shared state visible to the embedded handlers: the two
database tables, the Redis keyspace and the two Kafka topics.
`mod_next_id` is the sequence backing moderation_results.id. -/
structure SysState where
  adsDb : AdsDb
  moderation : List ModerationResult
  mod_next_id : Int
  cache : Cache
  intake : List KafkaMessage
  dlq : List DlqMessage
  deriving DecidableEq

/-! ## Moderation worker (workers/moderation_worker.py) -/

def MAX_RETRIES : Nat := 3

def RETRY_DELAY_SECONDS : Nat := 5

/-- process_message (workers/moderation_worker.py): one Kafka message's
processing, including the recursive retry with exponential backoff.  The
connection id of each `async with get_pg_connection()` scope is the
frame's retry_count, so recursive frames acquire fresh connections while
the enclosing scopes stay open until the recursion returns (the Python
`async with` block only exits then). -/
def process_message (model : Nat → Engine) (msg : KafkaMessage) (now : Nat)
    (st : SysState) : SysState × List Event :=
  let task_id := msg.task_id
  let item_id := msg.item_id
  let retry_count := msg.retry_count.getD 0
  match get_ad_with_seller st.adsDb item_id with
  | none =>
    let error_msg := "Ad with id=" ++ toString item_id ++ " not found"
    let rows := (update_moderation_failed st.moderation task_id error_msg now).1
    let dlq_message : DlqMessage :=
      { original_message := msg, error := error_msg, timestamp := now,
        retry_count := retry_count + 1 }
    ({ st with moderation := rows, dlq := st.dlq ++ [dlq_message] },
     [Event.connAcquire retry_count, Event.fetch item_id,
      Event.dbFailed task_id, Event.dlqSend (retry_count + 1),
      Event.connRelease retry_count])
  | some row =>
    match predict_validity (model retry_count) row.seller_id row.ad_id
        row.is_verified_seller row.images_qty row.description row.category with
    | Except.ok (is_valid, proba) =>
      let is_violation := !is_valid
      let rows :=
        (update_moderation_completed st.moderation task_id is_violation proba now).1
      let st1 := { st with moderation := rows }
      let (c1, e1) := set_by_item st1.cache item_id is_valid proba
      let (c2, e2) :=
        set_moderation c1 task_id "completed" (some is_violation) (some proba)
      ({ st1 with cache := c2 },
       [Event.connAcquire retry_count, Event.fetch item_id,
        Event.score retry_count, Event.dbCompleted task_id,
        Event.connRelease retry_count] ++ e1 ++ e2)
    | Except.error e =>
      let next_retry := retry_count + 1
      if _h : next_retry < MAX_RETRIES then
        let delay := RETRY_DELAY_SECONDS * 2 ^ retry_count
        let msg' := { msg with retry_count := some next_retry }
        let (st', tr') := process_message model msg' now st
        (st',
         [Event.connAcquire retry_count, Event.fetch item_id,
          Event.score retry_count, Event.sleep delay] ++ tr'
           ++ [Event.connRelease retry_count])
      else
        let rows := (update_moderation_failed st.moderation task_id e now).1
        let dlq_message : DlqMessage :=
          { original_message := msg, error := e, timestamp := now,
            retry_count := next_retry }
        ({ st with moderation := rows, dlq := st.dlq ++ [dlq_message] },
         [Event.connAcquire retry_count, Event.fetch item_id,
          Event.score retry_count, Event.dbFailed task_id,
          Event.dlqSend next_retry, Event.connRelease retry_count])
  termination_by MAX_RETRIES - msg.retry_count.getD 0
  decreasing_by
    simp only [Option.getD_some]
    omega

/-! ## HTTP routes (routes/predict.py) -/

/-- HTTPException payload: status code and detail string. -/
structure HttpError where
  status_code : Nat
  detail : String
  deriving DecidableEq, Repr

/-- Response of POST /async_predict. -/
structure AsyncPredictResponse where
  task_id : Int
  status : String
  message : String
  deriving DecidableEq, Repr

/-- Response of GET /moderation_result. -/
structure ModerationResultResponse where
  task_id : Int
  status : String
  is_violation : Option Bool
  probability : Option Rat
  deriving DecidableEq, Repr

/-- Response of POST /predict and POST /simple_predict. -/
structure PredictResponse where
  is_valid : Bool
  probability : Rat
  deriving DecidableEq, Repr

/-- Response of POST /close. -/
structure CloseAdResponse where
  item_id : Int
  message : String
  deriving DecidableEq, Repr

/-- Request body of POST /predict. -/
structure PredictRequest where
  seller_id : Int
  is_verified_seller : Bool
  item_id : Int
  name : String
  description : String
  category : Int
  images_qty : Int
  deriving DecidableEq, Repr

/-- POST /async_predict (routes/predict.py async_predict): 404 when the ad
does not exist; otherwise insert a pending moderation row inside the
connection scope and only then publish the intake message. -/
def async_predict (st : SysState) (item_id : Int) (now : Nat) :
    Except HttpError AsyncPredictResponse × SysState × List Event :=
  match get_ad_by_id st.adsDb item_id with
  | none => (Except.error ⟨404, "Ad not found"⟩, st, [])
  | some _ =>
    let (rows, moderation) :=
      create_moderation_request st.moderation st.mod_next_id item_id now
    let st1 := { st with moderation := rows, mod_next_id := st.mod_next_id + 1 }
    let (topic, _) := send_moderation_request st1.intake item_id moderation.id now
    let st2 := { st1 with intake := topic }
    (Except.ok ⟨moderation.id, "pending", "Moderation request accepted"⟩, st2,
     [Event.dbInsertPending moderation.id, Event.publishIntake moderation.id])

/-- GET /moderation_result (routes/predict.py moderation_result):
cache-first read; on a cold read the row is looked up in the Result Store,
404 when absent, and the row (whatever its status) is handed to
set_moderation, whose pending guard decides whether it is cached. -/
def moderation_result (st : SysState) (task_id : Int) :
    Except HttpError ModerationResultResponse × SysState × List Event :=
  match get_moderation st.cache task_id with
  | some (CacheEntry.moderation t s iv p) => (Except.ok ⟨t, s, iv, p⟩, st, [])
  | _ =>
    match get_moderation_by_id st.moderation task_id with
    | none => (Except.error ⟨404, "Task not found"⟩, st, [])
    | some m =>
      let (c, ev) := set_moderation st.cache m.id m.status m.is_violation
        m.probability
      (Except.ok ⟨m.id, m.status, m.is_violation, m.probability⟩,
       { st with cache := c }, ev)

/-- POST /simple_predict (routes/predict.py simple_predict). -/
def simple_predict (model : Engine) (st : SysState) (item_id : Int) :
    Except HttpError PredictResponse × SysState × List Event :=
  match get_by_item st.cache item_id with
  | some cached => (Except.ok ⟨cached.is_valid, cached.probability⟩, st, [])
  | none =>
    match get_ad_with_seller st.adsDb item_id with
    | none => (Except.error ⟨404, "Ad not found"⟩, st, [])
    | some row =>
      match predict_validity model row.seller_id row.ad_id
          row.is_verified_seller row.images_qty row.description row.category with
      | Except.error e => (Except.error ⟨500, e⟩, st, [])
      | Except.ok (is_valid, proba) =>
        let (c, ev) := set_by_item st.cache item_id is_valid proba
        (Except.ok ⟨is_valid, proba⟩, { st with cache := c }, ev)

/-- POST /predict (routes/predict.py predict_handler): per-feature cache. -/
def predict_handler (model : Engine) (st : SysState) (req : PredictRequest) :
    Except HttpError PredictResponse × SysState × List Event :=
  match get_by_features st.cache req.is_verified_seller req.images_qty
      req.description req.category with
  | some cached => (Except.ok ⟨cached.is_valid, cached.probability⟩, st, [])
  | none =>
    match predict_validity model req.seller_id req.item_id
        req.is_verified_seller req.images_qty req.description req.category with
    | Except.error e => (Except.error ⟨500, e⟩, st, [])
    | Except.ok (is_valid, proba) =>
      let (c, ev) := set_by_features st.cache is_valid proba
        req.is_verified_seller req.images_qty req.description req.category
      (Except.ok ⟨is_valid, proba⟩, { st with cache := c }, ev)

/-- Cache invalidation loop of close_ad_handler:
`for task_id in deleted_task_ids: await predict_cache.invalidate_moderation(task_id)`. -/
def invalidate_moderation_list (c : Cache) : List Int → Cache × List Event
  | [] => (c, [])
  | t :: rest =>
    let (c1, e1) := invalidate_moderation c t
    let (c2, e2) := invalidate_moderation_list c1 rest
    (c2, e1 ++ e2)

/-- POST /close (routes/predict.py close_ad_handler): close the ad (404
when absent or already closed), delete its moderation rows collecting
their ids, then invalidate the per-listing key and each collected
per-task key. -/
def close_ad_handler (st : SysState) (item_id : Int) :
    Except HttpError CloseAdResponse × SysState × List Event :=
  match close_ad st.adsDb item_id with
  | (_, none) => (Except.error ⟨404, "Ad not found or already closed"⟩, st, [])
  | (ads', some _) =>
    let (rows, deleted_task_ids) := delete_moderation_by_item st.moderation item_id
    let st1 := { st with adsDb := ads', moderation := rows }
    let (c1, e1) := invalidate_by_item st1.cache item_id
    let (c2, e2) := invalidate_moderation_list c1 deleted_task_ids
    (Except.ok ⟨item_id, "Ad closed"⟩, { st1 with cache := c2 }, e1 ++ e2)

/-! ## Operation alphabet for system-level invariants -/

/-- One step of the system: any of the embedded entry points that can
touch the shared state. -/
inductive Op where
  | worker (model : Nat → Engine) (msg : KafkaMessage) (now : Nat)
  | modResult (task_id : Int)
  | asyncPredict (item_id : Int) (now : Nat)
  | close (item_id : Int)
  | simplePredict (model : Engine) (item_id : Int)
  | predict (model : Engine) (req : PredictRequest)

/-- Apply one operation to the state. -/
def runOp (st : SysState) : Op → SysState
  | Op.worker model msg now => (process_message model msg now st).1
  | Op.modResult task_id => (moderation_result st task_id).2.1
  | Op.asyncPredict item_id now => (async_predict st item_id now).2.1
  | Op.close item_id => (close_ad_handler st item_id).2.1
  | Op.simplePredict model item_id => (simple_predict model st item_id).2.1
  | Op.predict model req => (predict_handler model st req).2.1

/-- Apply a sequence of operations from left to right. -/
def runOps (st : SysState) : List Op → SysState
  | [] => st
  | op :: rest => runOps (runOp st op) rest

/-! ## Trace analysis: open connections -/

/-- Connections open after a prefix of events: acquires push, releases
erase. -/
def connStep (open_conns : List Nat) : Event → List Nat
  | Event.connAcquire c => c :: open_conns
  | Event.connRelease c => open_conns.erase c
  | _ => open_conns

/-- Connections open after the whole trace. -/
def openConnsAfter (tr : List Event) : List Nat :=
  tr.foldl connStep []

/-- Connections open just before the event at index i. -/
def openConnsAt (tr : List Event) (i : Nat) : List Nat :=
  openConnsAfter (tr.take i)

/-- Check for a sleep event. -/
def Event.isSleep : Event → Bool
  | Event.sleep _ => true
  | _ => false

/-- Check for a scoring attempt event. -/
def Event.isScore : Event → Bool
  | Event.score _ => true
  | _ => false

/-- Check for a fetch event. -/
def Event.isFetch : Event → Bool
  | Event.fetch _ => true
  | _ => false

/-- Check for a dead-letter publish event. -/
def Event.isDlqSend : Event → Bool
  | Event.dlqSend _ => true
  | _ => false

/-- Check for a cache write event. -/
def Event.isCacheWrite : Event → Bool
  | Event.cacheWrite _ => true
  | _ => false

/-! ## Helper lemmas -/

/-- Both SQL SET clauses leave the row id unchanged, so lookups by id
commute with the UPDATE's row transformation. -/
theorem find?_map_of_id (rows : List ModerationResult)
    (f : ModerationResult → ModerationResult) (hf : ∀ r, (f r).id = r.id)
    (t : Int) :
    (rows.map f).find? (fun r => r.id = t) =
      (rows.find? (fun r => r.id = t)).map f := by
  induction rows with
  | nil => rfl
  | cons a rows ih =>
    simp only [List.map_cons, List.find?_cons]
    by_cases h : a.id = t
    · simp [hf, h]
    · simp [hf, h, ih]

/-- Reading a row after update_moderation_failed. -/
theorem get_moderation_update_failed (rows : List ModerationResult)
    (t : Int) (e : String) (now : Nat) (t' : Int) :
    get_moderation_by_id (update_moderation_failed rows t e now).1 t' =
      (get_moderation_by_id rows t').map
        (fun r => if r.id = t then setFailed r e now else r) := by
  unfold get_moderation_by_id update_moderation_failed
  exact find?_map_of_id rows _ (fun r => by unfold setFailed; split <;> rfl) t'

/-- Reading a row after update_moderation_completed. -/
theorem get_moderation_update_completed (rows : List ModerationResult)
    (t : Int) (iv : Bool) (p : Rat) (now : Nat) (t' : Int) :
    get_moderation_by_id (update_moderation_completed rows t iv p now).1 t' =
      (get_moderation_by_id rows t').map
        (fun r => if r.id = t then setCompleted r iv p now else r) := by
  unfold get_moderation_by_id update_moderation_completed
  exact find?_map_of_id rows _ (fun r => by unfold setCompleted; split <;> rfl) t'

/-- When every engine invocation fails, predict_validity fails with the
PredictionError message. -/
theorem predict_validity_error (model : Engine) (seller_id item_id : Int)
    (v : Bool) (q : Int) (d : String) (c : Int)
    (h : ∃ e, model (to_features v q d c) = Except.error e) :
    predict_validity model seller_id item_id v q d c =
      Except.error "Prediction failed" := by
  obtain ⟨e, he⟩ := h
  simp only [predict_validity]
  rw [he]

/-- Run characterization, permanent-failure branch: when the join returns
no row the worker makes a single attempt, marks the task failed with the
message naming the missing listing, publishes one dead-letter message with
retryCount = retry_count + 1, and touches no cache key. -/
theorem process_message_absent (model : Nat → Engine) (msg : KafkaMessage)
    (now : Nat) (st : SysState)
    (hfetch : get_ad_with_seller st.adsDb msg.item_id = none) :
    process_message model msg now st =
      ({ st with
          moderation := (update_moderation_failed st.moderation msg.task_id
            ("Ad with id=" ++ toString msg.item_id ++ " not found") now).1,
          dlq := st.dlq ++ [⟨msg,
            "Ad with id=" ++ toString msg.item_id ++ " not found",
            now, msg.retry_count.getD 0 + 1⟩] },
       [Event.connAcquire (msg.retry_count.getD 0), Event.fetch msg.item_id,
        Event.dbFailed msg.task_id, Event.dlqSend (msg.retry_count.getD 0 + 1),
        Event.connRelease (msg.retry_count.getD 0)]) := by
  rw [process_message]
  rw [hfetch]

/-- Run characterization, success branch: when the join succeeds and the
scoring call returns (is_valid, proba), the worker completes the task with
is_violation = !is_valid, writes the per-listing and per-task cache
entries, and publishes nothing. -/
theorem process_message_success (model : Nat → Engine) (msg : KafkaMessage)
    (now : Nat) (st : SysState) (row : AdWithSeller) (v : Bool) (p : Rat)
    (hfetch : get_ad_with_seller st.adsDb msg.item_id = some row)
    (hscore : predict_validity (model (msg.retry_count.getD 0)) row.seller_id
      row.ad_id row.is_verified_seller row.images_qty row.description
      row.category = Except.ok (v, p)) :
    process_message model msg now st =
      ({ st with
          moderation := (update_moderation_completed st.moderation msg.task_id
            (!v) p now).1,
          cache := cacheSet
            (cacheSet st.cache (item_predict_key msg.item_id)
              (CacheEntry.prediction v p) PREDICT_BY_ITEM_TTL)
            (moderation_key msg.task_id)
            (CacheEntry.moderation msg.task_id "completed" (some (!v)) (some p))
            MODERATION_RESULT_TTL },
       [Event.connAcquire (msg.retry_count.getD 0), Event.fetch msg.item_id,
        Event.score (msg.retry_count.getD 0), Event.dbCompleted msg.task_id,
        Event.connRelease (msg.retry_count.getD 0),
        Event.cacheWrite (item_predict_key msg.item_id),
        Event.cacheWrite (moderation_key msg.task_id)]) := by
  rw [process_message, hfetch]
  simp only [hscore, set_by_item, set_moderation]
  simp [cacheSet]

/-- Run characterization, transient-failure branch: when the join succeeds
at every attempt but every scoring attempt raises, a fresh message
delivery (no retry_count key) produces exactly three attempts with sleeps
of 5 and 10 seconds between them, then marks the task failed and publishes
one dead-letter message with retryCount = 3.  The trace shows each
enclosing connection staying open until its recursive retry returns. -/
theorem process_message_allfail (model : Nat → Engine) (msg : KafkaMessage)
    (now : Nat) (st : SysState) (row : AdWithSeller)
    (hretry : msg.retry_count = none)
    (hfetch : get_ad_with_seller st.adsDb msg.item_id = some row)
    (hfail : ∀ n, ∃ e, model n (to_features row.is_verified_seller
      row.images_qty row.description row.category) = Except.error e) :
    process_message model msg now st =
      ({ st with
          moderation := (update_moderation_failed st.moderation msg.task_id
            "Prediction failed" now).1,
          dlq := st.dlq ++ [⟨{ msg with retry_count := some 2 },
            "Prediction failed", now, 3⟩] },
       [Event.connAcquire 0, Event.fetch msg.item_id, Event.score 0,
        Event.sleep 5,
        Event.connAcquire 1, Event.fetch msg.item_id, Event.score 1,
        Event.sleep 10,
        Event.connAcquire 2, Event.fetch msg.item_id, Event.score 2,
        Event.dbFailed msg.task_id, Event.dlqSend 3,
        Event.connRelease 2, Event.connRelease 1, Event.connRelease 0]) := by
  have hpv : ∀ n, predict_validity (model n) row.seller_id row.ad_id
      row.is_verified_seller row.images_qty row.description row.category =
      Except.error "Prediction failed" :=
    fun n => predict_validity_error (model n) _ _ _ _ _ _ (hfail n)
  rw [process_message, hfetch]
  simp only [hpv, hretry, Option.getD_none, MAX_RETRIES, RETRY_DELAY_SECONDS]
  norm_num
  rw [process_message]
  simp only []
  rw [hfetch]
  simp only [hpv, Option.getD_some, MAX_RETRIES, RETRY_DELAY_SECONDS]
  norm_num
  rw [process_message]
  simp only []
  rw [hfetch]
  simp only [hpv, Option.getD_some, MAX_RETRIES, RETRY_DELAY_SECONDS]
  norm_num

/-- The per-listing and per-task keyspaces are disjoint: the key prefixes
differ. -/
theorem item_key_ne_moderation_key (i t : Int) :
    item_predict_key i ≠ moderation_key t := by
  unfold item_predict_key moderation_key
  intro h
  have h2 := congrArg String.data h
  simp [String.data_append] at h2

/-- Cache read-after-write on the same key. -/
theorem cacheGet_set_self (c : Cache) (k : String) (v : CacheEntry) (ttl : Nat) :
    cacheGet (cacheSet c k v ttl) k = some v := by
  simp [cacheGet, cacheSet]

/-- Core filter lemma: dropping the cells keyed k does not change a lookup
of a different key. -/
theorem find?_filter_ne (c : List CacheCell) (k k' : String) (h : k' ≠ k) :
    List.find? (fun cell => cell.key = k')
        (List.filter (fun cell => cell.key ≠ k) c) =
      List.find? (fun cell => cell.key = k') c := by
  induction c with
  | nil => rfl
  | cons cell c ih =>
    by_cases hk : cell.key = k
    · have hne : ¬ (cell.key = k') := fun hh => h (Eq.trans hh.symm hk)
      rw [List.filter_cons_of_neg (by simp [hk]),
        List.find?_cons_of_neg _ (by simp [hne])]
      exact ih
    · rw [List.filter_cons_of_pos (by simp [hk])]
      by_cases hk' : cell.key = k'
      · rw [List.find?_cons_of_pos _ (by simp [hk']),
          List.find?_cons_of_pos _ (by simp [hk'])]
      · rw [List.find?_cons_of_neg _ (by simp [hk']),
          List.find?_cons_of_neg _ (by simp [hk'])]
        exact ih

/-- Cache write leaves other keys untouched. -/
theorem cacheGet_set_other (c : Cache) (k : String) (v : CacheEntry)
    (ttl : Nat) (k' : String) (h : k' ≠ k) :
    cacheGet (cacheSet c k v ttl) k' = cacheGet c k' := by
  unfold cacheGet cacheSet
  rw [List.find?_cons_of_neg _ (by simp [Ne.symm h]), find?_filter_ne c k k' h]

/-- Cache read-after-delete on the same key. -/
theorem cacheGet_delete_self (c : Cache) (k : String) :
    cacheGet (cacheDelete c k) k = none := by
  have hfind : List.find? (fun cell => cell.key = k)
      (List.filter (fun cell => cell.key ≠ k) c) = none :=
    List.find?_eq_none.mpr (fun a ha => by
      simpa using (List.mem_filter.mp ha).2)
  unfold cacheGet cacheDelete
  rw [hfind]
  rfl

/-- Cache delete leaves other keys untouched. -/
theorem cacheGet_delete_other (c : Cache) (k : String) (k' : String)
    (h : k' ≠ k) : cacheGet (cacheDelete c k) k' = cacheGet c k' := by
  unfold cacheGet cacheDelete
  rw [find?_filter_ne c k k' h]

/-- Deleting any key cannot resurrect an absent binding. -/
theorem cacheGet_delete_none (c : Cache) (k k' : String)
    (h : cacheGet c k = none) : cacheGet (cacheDelete c k') k = none := by
  by_cases hk : k = k'
  · rw [hk]; exact cacheGet_delete_self c k'
  · rw [cacheGet_delete_other c k' k hk]; exact h

/-- The per-task invalidation loop cannot resurrect an absent binding. -/
theorem invalidate_moderation_list_none (ids : List Int) (c : Cache)
    (k : String) (h : cacheGet c k = none) :
    cacheGet (invalidate_moderation_list c ids).1 k = none := by
  induction ids generalizing c with
  | nil => exact h
  | cons t rest ih =>
    simp only [invalidate_moderation_list, invalidate_moderation]
    exact ih _ (cacheGet_delete_none _ _ _ h)

/-- Every id passed to the per-task invalidation loop ends up absent. -/
theorem invalidate_moderation_list_mem (ids : List Int) (t : Int)
    (h : t ∈ ids) : ∀ c : Cache,
    cacheGet (invalidate_moderation_list c ids).1 (moderation_key t) = none := by
  induction ids with
  | nil => cases h
  | cons t0 rest ih =>
    intro c
    simp only [invalidate_moderation_list, invalidate_moderation]
    rcases List.mem_cons.mp h with h0 | hmem
    · subst h0
      exact invalidate_moderation_list_none rest _ _
        (cacheGet_delete_self c (moderation_key t))
    · exact ih hmem _

/-- Looking up the failed task id after update_moderation_failed. -/
theorem get_moderation_failed_of_row (rows : List ModerationResult) (t : Int)
    (e : String) (now : Nat) (r0 : ModerationResult)
    (hrow : get_moderation_by_id rows t = some r0) :
    get_moderation_by_id (update_moderation_failed rows t e now).1 t =
      some (setFailed r0 e now) := by
  rw [get_moderation_update_failed, hrow]
  have hid : r0.id = t := by
    have := List.find?_some hrow
    simpa using this
  simp [hid]

/-- Looking up the completed task id after update_moderation_completed. -/
theorem get_moderation_completed_of_row (rows : List ModerationResult)
    (t : Int) (iv : Bool) (p : Rat) (now : Nat) (r0 : ModerationResult)
    (hrow : get_moderation_by_id rows t = some r0) :
    get_moderation_by_id (update_moderation_completed rows t iv p now).1 t =
      some (setCompleted r0 iv p now) := by
  rw [get_moderation_update_completed, hrow]
  have hid : r0.id = t := by
    have := List.find?_some hrow
    simpa using this
  simp [hid]

/-- Inversion for a successful predict_validity call: the validity flag is
computed from the probability, not returned by the engine. -/
theorem predict_validity_ok (model : Engine) (seller_id item_id : Int)
    (vf : Bool) (q : Int) (d : String) (c : Int) (v : Bool) (p : Rat)
    (h : predict_validity model seller_id item_id vf q d c = Except.ok (v, p)) :
    v = decide ((1 : Rat)/2 ≤ p) ∧
      model (to_features vf q d c) = Except.ok p := by
  revert h
  simp only [predict_validity]
  cases hm : model (to_features vf q d c) with
  | error e => intro h; cases h
  | ok q' =>
    intro h
    have h2 : decide ((1 : Rat)/2 ≤ q') = v ∧ q' = p := by
      have := Except.ok.inj h
      exact ⟨congrArg Prod.fst this, congrArg Prod.snd this⟩
    obtain ⟨hv, hq⟩ := h2
    subst hq
    exact ⟨hv.symm, rfl⟩

/-! ## Concrete fixtures for witnesses and counterexamples -/

/-- Sample open listing. -/
def sampleAd : Ad := ⟨10, 1, "Item", "Some description", 5, 2, false, 0⟩

/-- Sample verified seller. -/
def sampleUser : User := ⟨1, true⟩

/-- Sample pending moderation row for the listing. -/
def samplePendingRow : ModerationResult :=
  ⟨42, 10, "pending", none, none, none, 0, none⟩

/-- Sample completed moderation row (is_violation = false,
probability = 9/10). -/
def sampleCompletedRow : ModerationResult :=
  ⟨42, 10, "completed", some false, some (9/10), none, 0, some 1⟩

/-- State with the listing, its seller and a pending task. -/
def sampleState : SysState :=
  ⟨⟨[sampleAd], [sampleUser]⟩, [samplePendingRow], 43, [], [], []⟩

/-- State with the listing, its seller and a completed task. -/
def completedState : SysState :=
  ⟨⟨[sampleAd], [sampleUser]⟩, [sampleCompletedRow], 43, [], [], []⟩

/-- State where the listing has been deleted but the completed task row
remains. -/
def noAdState : SysState := ⟨⟨[], []⟩, [sampleCompletedRow], 43, [], [], []⟩

/-- Fresh intake message for the sample task, as the producer publishes
it (no retry_count key). -/
def sampleMsg : KafkaMessage := ⟨42, 10, none, 7⟩

/-- Engine whose every invocation raises. -/
def failModel : Nat → Engine := fun _ _ => Except.error "boom"

/-- Engine that always returns probability p. -/
def constModel (p : Rat) : Nat → Engine := fun _ _ => Except.ok p

/-! ## Claims -/

/-- C3: for a task message whose listing (joined with its seller) is
absent at fetch time, the worker makes exactly one attempt (one fetch, no
scoring, no retry, no backoff sleep), marks the task failed with an error
message naming the missing listing, publishes exactly one dead-letter
message with retryCount = 1, and performs no cache writes. -/
theorem worker_absent_listing_single_attempt (model : Nat → Engine)
    (msg : KafkaMessage) (now : Nat) (st : SysState) (r0 : ModerationResult)
    (hretry : msg.retry_count = none)
    (hfetch : get_ad_with_seller st.adsDb msg.item_id = none)
    (hrow : get_moderation_by_id st.moderation msg.task_id = some r0) :
    (process_message model msg now st).2.countP Event.isFetch = 1 ∧
    (process_message model msg now st).2.countP Event.isScore = 0 ∧
    (process_message model msg now st).2.countP Event.isSleep = 0 ∧
    get_moderation_by_id (process_message model msg now st).1.moderation
        msg.task_id =
      some (setFailed r0 ("Ad with id=" ++ toString msg.item_id ++ " not found")
        now) ∧
    (process_message model msg now st).1.dlq =
      st.dlq ++ [⟨msg, "Ad with id=" ++ toString msg.item_id ++ " not found",
        now, 1⟩] ∧
    (process_message model msg now st).1.cache = st.cache ∧
    (process_message model msg now st).2.countP Event.isCacheWrite = 0 := by
  rw [process_message_absent model msg now st hfetch]
  refine ⟨by simp [Event.isFetch, List.countP_cons],
    by simp [Event.isScore, List.countP_cons],
    by simp [Event.isSleep, List.countP_cons], ?_,
    by simp [hretry], rfl,
    by simp [Event.isCacheWrite, List.countP_cons]⟩
  exact get_moderation_failed_of_row _ _ _ _ _ hrow

/-- Witness for C3: the sample completed task redelivered after its
listing disappeared. -/
theorem worker_absent_listing_single_attempt_witness :
    (process_message failModel sampleMsg 7 noAdState).2.countP Event.isFetch = 1 ∧
    (process_message failModel sampleMsg 7 noAdState).2.countP Event.isScore = 0 ∧
    (process_message failModel sampleMsg 7 noAdState).2.countP Event.isSleep = 0 ∧
    get_moderation_by_id (process_message failModel sampleMsg 7 noAdState).1.moderation
        sampleMsg.task_id =
      some (setFailed sampleCompletedRow
        ("Ad with id=" ++ toString sampleMsg.item_id ++ " not found") 7) ∧
    (process_message failModel sampleMsg 7 noAdState).1.dlq =
      noAdState.dlq ++ [⟨sampleMsg,
        "Ad with id=" ++ toString sampleMsg.item_id ++ " not found", 7, 1⟩] ∧
    (process_message failModel sampleMsg 7 noAdState).1.cache = noAdState.cache ∧
    (process_message failModel sampleMsg 7 noAdState).2.countP Event.isCacheWrite = 0 :=
  worker_absent_listing_single_attempt failModel sampleMsg 7 noAdState
    sampleCompletedRow rfl rfl rfl

/-- C2: for a fresh task message whose scoring-engine invocation always
raises while the fetch succeeds, the worker makes exactly 3 attempts
(indices 0, 1, 2), sleeps RETRY_DELAY_SECONDS * 2^(n-1) seconds
immediately before attempt n for n >= 1, re-runs the fetch on each retry,
then marks the task failed with the last error message and publishes
exactly one dead-letter message with retryCount = 3. -/
theorem worker_transient_failure_retries (model : Nat → Engine)
    (msg : KafkaMessage) (now : Nat) (st : SysState) (row : AdWithSeller)
    (r0 : ModerationResult)
    (hretry : msg.retry_count = none)
    (hfetch : get_ad_with_seller st.adsDb msg.item_id = some row)
    (hrow : get_moderation_by_id st.moderation msg.task_id = some r0)
    (hfail : ∀ n, ∃ e, model n (to_features row.is_verified_seller
      row.images_qty row.description row.category) = Except.error e) :
    (process_message model msg now st).2.filter Event.isScore =
      [Event.score 0, Event.score 1, Event.score 2] ∧
    (process_message model msg now st).2 =
      [Event.connAcquire 0, Event.fetch msg.item_id, Event.score 0,
       Event.sleep (RETRY_DELAY_SECONDS * 2 ^ 0),
       Event.connAcquire 1, Event.fetch msg.item_id, Event.score 1,
       Event.sleep (RETRY_DELAY_SECONDS * 2 ^ 1),
       Event.connAcquire 2, Event.fetch msg.item_id, Event.score 2,
       Event.dbFailed msg.task_id, Event.dlqSend 3,
       Event.connRelease 2, Event.connRelease 1, Event.connRelease 0] ∧
    (process_message model msg now st).2.countP Event.isFetch = 3 ∧
    get_moderation_by_id (process_message model msg now st).1.moderation
        msg.task_id =
      some (setFailed r0 "Prediction failed" now) ∧
    (process_message model msg now st).1.dlq =
      st.dlq ++ [⟨{ msg with retry_count := some 2 }, "Prediction failed",
        now, 3⟩] := by
  rw [process_message_allfail model msg now st row hretry hfetch hfail]
  refine ⟨by simp [Event.isScore, List.filter],
    by norm_num [RETRY_DELAY_SECONDS],
    by simp [Event.isFetch, List.countP_cons], ?_, by simp⟩
  exact get_moderation_failed_of_row _ _ _ _ _ hrow

/-- Witness for C2: the sample pending task with an engine that always
raises. -/
theorem worker_transient_failure_retries_witness :
    (process_message failModel sampleMsg 7 sampleState).2.filter Event.isScore =
      [Event.score 0, Event.score 1, Event.score 2] ∧
    (process_message failModel sampleMsg 7 sampleState).2 =
      [Event.connAcquire 0, Event.fetch sampleMsg.item_id, Event.score 0,
       Event.sleep (RETRY_DELAY_SECONDS * 2 ^ 0),
       Event.connAcquire 1, Event.fetch sampleMsg.item_id, Event.score 1,
       Event.sleep (RETRY_DELAY_SECONDS * 2 ^ 1),
       Event.connAcquire 2, Event.fetch sampleMsg.item_id, Event.score 2,
       Event.dbFailed sampleMsg.task_id, Event.dlqSend 3,
       Event.connRelease 2, Event.connRelease 1, Event.connRelease 0] ∧
    (process_message failModel sampleMsg 7 sampleState).2.countP Event.isFetch = 3 ∧
    get_moderation_by_id
        (process_message failModel sampleMsg 7 sampleState).1.moderation
        sampleMsg.task_id =
      some (setFailed samplePendingRow "Prediction failed" 7) ∧
    (process_message failModel sampleMsg 7 sampleState).1.dlq =
      sampleState.dlq ++ [⟨{ sampleMsg with retry_count := some 2 },
        "Prediction failed", 7, 3⟩] :=
  worker_transient_failure_retries failModel sampleMsg 7 sampleState
    ⟨10, 1, "Item", "Some description", 5, 2, true⟩ samplePendingRow
    rfl rfl rfl (fun _ => ⟨"boom", rfl⟩)

/-- C9 counterexample: in the concrete always-failing run the backoff
sleep at trace index 3 happens while connection 0, acquired by the
enclosing attempt, is still open - the sleep sits inside the
`async with get_pg_connection()` scope. -/
theorem worker_sleep_connection_counterexample :
    (process_message failModel sampleMsg 7 sampleState).2.get? 3 =
      some (Event.sleep 5) ∧
    openConnsAt (process_message failModel sampleMsg 7 sampleState).2 3 =
      [0] := by
  rw [process_message_allfail failModel sampleMsg 7 sampleState
    ⟨10, 1, "Item", "Some description", 5, 2, true⟩ rfl rfl
    (fun _ => ⟨"boom", rfl⟩)]
  exact ⟨rfl, rfl⟩

/-- C9 amended: the worker acquires a fresh connection per attempt (each
recursive retry opens its own scope), but the connections of the
enclosing attempts are held across the backoff sleep: in an always-failing
run there are exactly two sleeps, the first happens with connection 0
open and the second with connections 1 and 0 open. -/
theorem worker_backoff_holds_connections (model : Nat → Engine)
    (msg : KafkaMessage) (now : Nat) (st : SysState) (row : AdWithSeller)
    (hretry : msg.retry_count = none)
    (hfetch : get_ad_with_seller st.adsDb msg.item_id = some row)
    (hfail : ∀ n, ∃ e, model n (to_features row.is_verified_seller
      row.images_qty row.description row.category) = Except.error e) :
    (process_message model msg now st).2.countP Event.isSleep = 2 ∧
    (process_message model msg now st).2.get? 3 = some (Event.sleep 5) ∧
    openConnsAt (process_message model msg now st).2 3 = [0] ∧
    (process_message model msg now st).2.get? 7 = some (Event.sleep 10) ∧
    openConnsAt (process_message model msg now st).2 7 = [1, 0] := by
  rw [process_message_allfail model msg now st row hretry hfetch hfail]
  exact ⟨by simp [Event.isSleep, List.countP_cons], rfl, rfl, rfl, rfl⟩

/-- Witness for the amended C9. -/
theorem worker_backoff_holds_connections_witness :
    (process_message failModel sampleMsg 7 sampleState).2.countP Event.isSleep = 2 ∧
    (process_message failModel sampleMsg 7 sampleState).2.get? 3 =
      some (Event.sleep 5) ∧
    openConnsAt (process_message failModel sampleMsg 7 sampleState).2 3 = [0] ∧
    (process_message failModel sampleMsg 7 sampleState).2.get? 7 =
      some (Event.sleep 10) ∧
    openConnsAt (process_message failModel sampleMsg 7 sampleState).2 7 = [1, 0] :=
  worker_backoff_holds_connections failModel sampleMsg 7 sampleState
    ⟨10, 1, "Item", "Some description", 5, 2, true⟩ rfl rfl
    (fun _ => ⟨"boom", rfl⟩)

/-- C1 counterexample: the completed sample task, redelivered after its
listing was deleted, transitions out of the terminal state - the
unguarded UPDATE overwrites it to failed. -/
theorem terminal_state_counterexample :
    (get_moderation_by_id noAdState.moderation 42).map (fun r => r.status) =
      some "completed" ∧
    (get_moderation_by_id
        (process_message failModel sampleMsg 7 noAdState).1.moderation 42).map
      (fun r => r.status) = some "failed" := by
  refine ⟨rfl, ?_⟩
  rw [process_message_absent failModel sampleMsg 7 noAdState rfl]
  rfl

/-- C1 amended: reprocessing a message for a completed task leaves its
status, isViolation and probability unchanged provided the redelivered
processing reaches the same successful verdict (the fetch succeeds and
the engine returns the same probability): the terminal row is overwritten
in place with identical values.  Without that proviso the claim fails: a
redelivery on which the listing is absent (see the counterexample) or on
which scoring persistently fails overwrites the completed task to failed,
because the UPDATE has no status guard. -/
theorem terminal_state_idempotent_reprocess (model : Nat → Engine)
    (msg : KafkaMessage) (now : Nat) (st : SysState) (row : AdWithSeller)
    (r0 : ModerationResult) (v : Bool) (p : Rat)
    (hfetch : get_ad_with_seller st.adsDb msg.item_id = some row)
    (hscore : predict_validity (model (msg.retry_count.getD 0)) row.seller_id
      row.ad_id row.is_verified_seller row.images_qty row.description
      row.category = Except.ok (v, p))
    (hrow : get_moderation_by_id st.moderation msg.task_id = some r0)
    (hstatus : r0.status = "completed")
    (hiv : r0.is_violation = some (!v))
    (hp : r0.probability = some p) :
    (get_moderation_by_id (process_message model msg now st).1.moderation
        msg.task_id).map (fun r => (r.status, r.is_violation, r.probability)) =
      some (r0.status, r0.is_violation, r0.probability) := by
  rw [process_message_success model msg now st row v p hfetch hscore]
  have hdb := get_moderation_completed_of_row st.moderation msg.task_id (!v) p
    now r0 hrow
  simp only [hdb]
  simp [setCompleted, hstatus, hiv, hp]

/-- Witness for the amended C1: redelivering the completed task's message
with the engine still answering 9/10 leaves the row unchanged. -/
theorem terminal_state_idempotent_reprocess_witness :
    (get_moderation_by_id (process_message (constModel (9/10)) sampleMsg 7
        completedState).1.moderation sampleMsg.task_id).map
      (fun r => (r.status, r.is_violation, r.probability)) =
      some (sampleCompletedRow.status, sampleCompletedRow.is_violation,
        sampleCompletedRow.probability) :=
  terminal_state_idempotent_reprocess (constModel (9/10)) sampleMsg 7
    completedState ⟨10, 1, "Item", "Some description", 5, 2, true⟩
    sampleCompletedRow true (9/10) rfl
    (by norm_num [predict_validity, constModel, to_features]) rfl rfl rfl rfl

/-- C4: when the fetch succeeds and the engine returns (is_valid, proba)
on the first attempt, the worker marks the task completed with
isViolation = !is_valid and the engine's probability, writes the
per-listing verdict cache entry and the per-task terminal-result cache
entry, and publishes no dead-letter message. -/
theorem worker_success_completes_and_caches (model : Nat → Engine)
    (msg : KafkaMessage) (now : Nat) (st : SysState) (row : AdWithSeller)
    (r0 : ModerationResult) (v : Bool) (p : Rat)
    (hretry : msg.retry_count = none)
    (hfetch : get_ad_with_seller st.adsDb msg.item_id = some row)
    (hscore : predict_validity (model 0) row.seller_id row.ad_id
      row.is_verified_seller row.images_qty row.description row.category =
      Except.ok (v, p))
    (hrow : get_moderation_by_id st.moderation msg.task_id = some r0) :
    get_moderation_by_id (process_message model msg now st).1.moderation
        msg.task_id = some (setCompleted r0 (!v) p now) ∧
    get_by_item (process_message model msg now st).1.cache msg.item_id =
      some ⟨v, p⟩ ∧
    get_moderation (process_message model msg now st).1.cache msg.task_id =
      some (CacheEntry.moderation msg.task_id "completed" (some (!v)) (some p)) ∧
    (process_message model msg now st).1.dlq = st.dlq ∧
    (process_message model msg now st).2.countP Event.isDlqSend = 0 := by
  have h0 : msg.retry_count.getD 0 = 0 := by rw [hretry]; rfl
  rw [process_message_success model msg now st row v p hfetch (by rw [h0]; exact hscore)]
  refine ⟨get_moderation_completed_of_row _ _ _ _ _ _ hrow, ?_, ?_, rfl,
    by simp [Event.isDlqSend, List.countP_cons]⟩
  · have hk : cacheGet (cacheSet
        (cacheSet st.cache (item_predict_key msg.item_id)
          (CacheEntry.prediction v p) PREDICT_BY_ITEM_TTL)
        (moderation_key msg.task_id)
        (CacheEntry.moderation msg.task_id "completed" (some (!v)) (some p))
        MODERATION_RESULT_TTL) (item_predict_key msg.item_id) =
        some (CacheEntry.prediction v p) := by
      rw [cacheGet_set_other _ _ _ _ _
        (item_key_ne_moderation_key msg.item_id msg.task_id)]
      exact cacheGet_set_self _ _ _ _
    simp [get_by_item, hk]
  · unfold get_moderation
    exact cacheGet_set_self _ _ _ _

/-- Witness for C4: the sample pending task scored 9/10 on the first
attempt. -/
theorem worker_success_completes_and_caches_witness :
    get_moderation_by_id (process_message (constModel (9/10)) sampleMsg 7
        sampleState).1.moderation sampleMsg.task_id =
      some (setCompleted samplePendingRow (!true) (9/10) 7) ∧
    get_by_item (process_message (constModel (9/10)) sampleMsg 7
        sampleState).1.cache sampleMsg.item_id = some ⟨true, 9/10⟩ ∧
    get_moderation (process_message (constModel (9/10)) sampleMsg 7
        sampleState).1.cache sampleMsg.task_id =
      some (CacheEntry.moderation sampleMsg.task_id "completed" (some (!true))
        (some (9/10))) ∧
    (process_message (constModel (9/10)) sampleMsg 7 sampleState).1.dlq =
      sampleState.dlq ∧
    (process_message (constModel (9/10)) sampleMsg 7
      sampleState).2.countP Event.isDlqSend = 0 :=
  worker_success_completes_and_caches (constModel (9/10)) sampleMsg 7
    sampleState ⟨10, 1, "Item", "Some description", 5, 2, true⟩
    samplePendingRow true (9/10) rfl rfl
    (by norm_num [predict_validity, constModel, to_features]) rfl

/-- C10: for every successful scoring invocation the validity flag is
derived from the probability (is_valid = (probability >= 1/2)) rather
than delivered independently by the engine; consequently the verdict the
worker persists and caches on the success path satisfies
isViolation = (probability < 1/2). -/
theorem validity_derived_from_probability (model : Nat → Engine)
    (msg : KafkaMessage) (now : Nat) (st : SysState) (row : AdWithSeller)
    (r0 : ModerationResult) (v : Bool) (p : Rat)
    (hfetch : get_ad_with_seller st.adsDb msg.item_id = some row)
    (hscore : predict_validity (model (msg.retry_count.getD 0)) row.seller_id
      row.ad_id row.is_verified_seller row.images_qty row.description
      row.category = Except.ok (v, p))
    (hrow : get_moderation_by_id st.moderation msg.task_id = some r0) :
    v = decide ((1 : Rat)/2 ≤ p) ∧
    (get_moderation_by_id (process_message model msg now st).1.moderation
        msg.task_id).map (fun r => r.is_violation) =
      some (some (decide (p < (1 : Rat)/2))) ∧
    get_moderation (process_message model msg now st).1.cache msg.task_id =
      some (CacheEntry.moderation msg.task_id "completed"
        (some (decide (p < (1 : Rat)/2))) (some p)) ∧
    get_by_item (process_message model msg now st).1.cache msg.item_id =
      some ⟨decide ((1 : Rat)/2 ≤ p), p⟩ := by
  have hv := (predict_validity_ok _ _ _ _ _ _ _ _ _ hscore).1
  have hnv : (!v) = decide (p < (1 : Rat)/2) := by
    rcases le_or_lt ((1 : Rat)/2) p with hle | hlt
    · rw [hv, decide_eq_true hle, decide_eq_false (not_lt.mpr hle)]
      rfl
    · rw [hv, decide_eq_false (not_le.mpr hlt), decide_eq_true hlt]
      rfl
  rw [process_message_success model msg now st row v p hfetch hscore]
  have hdb := get_moderation_completed_of_row st.moderation msg.task_id (!v) p
    now r0 hrow
  refine ⟨hv, ?_, ?_, ?_⟩
  · rw [hdb, ← hnv]
    rfl
  · unfold get_moderation
    rw [cacheGet_set_self, hnv]
  · have hk : cacheGet (cacheSet
        (cacheSet st.cache (item_predict_key msg.item_id)
          (CacheEntry.prediction v p) PREDICT_BY_ITEM_TTL)
        (moderation_key msg.task_id)
        (CacheEntry.moderation msg.task_id "completed" (some (!v)) (some p))
        MODERATION_RESULT_TTL) (item_predict_key msg.item_id) =
        some (CacheEntry.prediction v p) := by
      rw [cacheGet_set_other _ _ _ _ _
        (item_key_ne_moderation_key msg.item_id msg.task_id)]
      exact cacheGet_set_self _ _ _ _
    rw [← hv]
    simp [get_by_item, hk]

/-- Witness for C10: probability 3/10 yields is_valid = false and a cached
and persisted isViolation = true. -/
theorem validity_derived_from_probability_witness :
    (false : Bool) = decide ((1 : Rat)/2 ≤ (3/10 : Rat)) ∧
    (get_moderation_by_id (process_message (constModel (3/10)) sampleMsg 7
        sampleState).1.moderation sampleMsg.task_id).map
      (fun r => r.is_violation) =
      some (some (decide ((3/10 : Rat) < (1 : Rat)/2))) ∧
    get_moderation (process_message (constModel (3/10)) sampleMsg 7
        sampleState).1.cache sampleMsg.task_id =
      some (CacheEntry.moderation sampleMsg.task_id "completed"
        (some (decide ((3/10 : Rat) < (1 : Rat)/2))) (some (3/10))) ∧
    get_by_item (process_message (constModel (3/10)) sampleMsg 7
        sampleState).1.cache sampleMsg.item_id =
      some ⟨decide ((1 : Rat)/2 ≤ (3/10 : Rat)), 3/10⟩ :=
  validity_derived_from_probability (constModel (3/10)) sampleMsg 7
    sampleState ⟨10, 1, "Item", "Some description", 5, 2, true⟩
    samplePendingRow false (3/10) rfl
    (by norm_num [predict_validity, constModel, to_features]) rfl

/-- C5 counterexample: the task-intake message that async_predict
publishes for an existing listing has no retry_count field at all (the
producer serializes only task_id, item_id and timestamp), so it does not
carry retryCount = 0. -/
theorem intake_message_no_retry_count_counterexample :
    ((async_predict sampleState 10 3).2.1.intake.getLast?).map
      (fun m => m.retry_count) = some none ∧
    ((async_predict sampleState 10 3).2.1.intake.getLast?).map
      (fun m => m.retry_count) ≠ some (some 0) := by
  exact ⟨rfl, by decide⟩

/-- C5 amended: enqueueing for a listing id with no existing listing
fails NotFound and creates no row and publishes no message; for an
existing listing exactly one pending ModerationTask row is created and
then exactly one task-intake message is published (the insert precedes
the publish in the trace), but the published message carries only
task_id, item_id and timestamp - no retryCount field; the worker's read
`message_value.get("retry_count", 0)` treats the missing field as 0, so
processing starts at attempt 0. -/
theorem enqueue_creates_pending_then_publishes (st : SysState)
    (item_id : Int) (now : Nat) :
    (get_ad_by_id st.adsDb item_id = none →
      async_predict st item_id now =
        (Except.error ⟨404, "Ad not found"⟩, st, [])) ∧
    (∀ a, get_ad_by_id st.adsDb item_id = some a →
      (async_predict st item_id now).1 =
        Except.ok ⟨st.mod_next_id, "pending", "Moderation request accepted"⟩ ∧
      (async_predict st item_id now).2.1.moderation =
        st.moderation ++
          [⟨st.mod_next_id, item_id, "pending", none, none, none, now, none⟩] ∧
      (async_predict st item_id now).2.1.intake =
        st.intake ++ [⟨st.mod_next_id, item_id, none, now⟩] ∧
      (async_predict st item_id now).2.2 =
        [Event.dbInsertPending st.mod_next_id,
         Event.publishIntake st.mod_next_id] ∧
      (⟨st.mod_next_id, item_id, none, now⟩ : KafkaMessage).retry_count.getD 0
        = 0) := by
  constructor
  · intro h
    unfold async_predict
    rw [h]
  · intro a h
    unfold async_predict
    rw [h]
    exact ⟨rfl, rfl, rfl, rfl, rfl⟩

/-- Witness for the amended C5: a missing listing id 999 fails NotFound;
the existing listing 10 creates row 43 and publishes one message. -/
theorem enqueue_creates_pending_then_publishes_witness :
    (async_predict sampleState 999 3 =
      (Except.error ⟨404, "Ad not found"⟩, sampleState, [])) ∧
    ((async_predict sampleState 10 3).1 =
      Except.ok ⟨sampleState.mod_next_id, "pending",
        "Moderation request accepted"⟩ ∧
     (async_predict sampleState 10 3).2.1.moderation =
       sampleState.moderation ++
         [⟨sampleState.mod_next_id, 10, "pending", none, none, none, 3, none⟩] ∧
     (async_predict sampleState 10 3).2.1.intake =
       sampleState.intake ++ [⟨sampleState.mod_next_id, 10, none, 3⟩] ∧
     (async_predict sampleState 10 3).2.2 =
       [Event.dbInsertPending sampleState.mod_next_id,
        Event.publishIntake sampleState.mod_next_id] ∧
     (⟨sampleState.mod_next_id, 10, none, 3⟩ : KafkaMessage).retry_count.getD 0
       = 0) :=
  ⟨(enqueue_creates_pending_then_publishes sampleState 999 3).1 rfl,
   (enqueue_creates_pending_then_publishes sampleState 10 3).2 sampleAd rfl⟩

/-- C8 counterexample: a stored raw value that fails to deserialize makes
RedisClient.get propagate the error (the json.loads call is unguarded)
rather than return a cache miss. -/
theorem cache_get_raises_counterexample :
    RedisClient.get (J := Nat) (fun _ => Except.error "Expecting value")
      (fun _ => some "not json") "predict:item:10" =
      Except.error "Expecting value" ∧
    RedisClient.get (J := Nat) (fun _ => Except.error "Expecting value")
      (fun _ => some "not json") "predict:item:10" ≠ Except.ok none :=
  ⟨rfl, fun h => Except.noConfusion h⟩

/-- C8 amended: the cache wrapper's get returns a miss only when the key
has no stored value; a stored raw value that fails to deserialize makes
get raise - the deserialization error propagates to the caller instead
of being treated as a miss. -/
theorem cache_get_miss_or_raise {J : Type} (loads : String → Except String J)
    (store : String → Option String) (key : String) :
    (store key = none → RedisClient.get loads store key = Except.ok none) ∧
    (∀ raw e, store key = some raw → loads raw = Except.error e →
      RedisClient.get loads store key = Except.error e) ∧
    (∀ raw v, store key = some raw → loads raw = Except.ok v →
      RedisClient.get loads store key = Except.ok (some v)) := by
  refine ⟨fun h => ?_, fun raw e h1 h2 => ?_, fun raw v h1 h2 => ?_⟩
  · unfold RedisClient.get
    rw [h]
  · unfold RedisClient.get
    rw [h1]
    simp only [h2]
  · unfold RedisClient.get
    rw [h1]
    simp only [h2]

/-- Witness for the amended C8. -/
theorem cache_get_miss_or_raise_witness :
    RedisClient.get (J := Nat)
      (fun s => if s = "1" then Except.ok 1 else Except.error "bad")
      (fun k => if k = "a" then some "zz" else none) "a" =
      Except.error "bad" :=
  (cache_get_miss_or_raise
    (fun s => if s = "1" then Except.ok 1 else Except.error "bad")
    (fun k => if k = "a" then some "zz" else none) "a").2.1 "zz" "bad"
    rfl rfl

/-- A listing found by id that is open is also found by close_ad's
guarded WHERE clause. -/
theorem find?_open_ad (l : List Ad) (L : Int) (a : Ad)
    (h : l.find? (fun b => b.id = L) = some a) (ha : a.is_closed = false) :
    l.find? (fun b => b.id = L && !b.is_closed) = some a := by
  induction l with
  | nil => cases h
  | cons x l ih =>
    by_cases hx : x.id = L
    · rw [List.find?_cons_of_pos _ (by simp [hx])] at h
      have hxa : x = a := by injection h
      subst hxa
      rw [List.find?_cons_of_pos _ (by simp [hx, ha])]
    · rw [List.find?_cons_of_neg _ (by simp [hx])] at h
      rw [List.find?_cons_of_neg _ (by simp [hx])]
      exact ih h

/-- C7: closing an open listing succeeds, deletes every ModerationTask
row for that listing, deletes the per-listing verdict cache key, and
deletes the per-task terminal-result cache key for every collected task
id; when the listing has zero outstanding tasks the trace shows the
single per-listing deletion and no per-task deletion, and the operation
still succeeds. -/
theorem close_listing_invalidation (st : SysState) (item_id : Int) (a : Ad)
    (had : get_ad_by_id st.adsDb item_id = some a)
    (hopen : a.is_closed = false) :
    (close_ad_handler st item_id).1 = Except.ok ⟨item_id, "Ad closed"⟩ ∧
    (close_ad_handler st item_id).2.1.moderation =
      st.moderation.filter (fun r => r.item_id ≠ item_id) ∧
    cacheGet (close_ad_handler st item_id).2.1.cache
      (item_predict_key item_id) = none ∧
    (∀ t, t ∈ (delete_moderation_by_item st.moderation item_id).2 →
      cacheGet (close_ad_handler st item_id).2.1.cache
        (moderation_key t) = none) ∧
    ((delete_moderation_by_item st.moderation item_id).2 = [] →
      (close_ad_handler st item_id).2.2 =
        [Event.cacheDel (item_predict_key item_id)]) := by
  have hfind : st.adsDb.ads.find? (fun b => b.id = item_id && !b.is_closed) =
      some a := find?_open_ad _ _ _ had hopen
  have hclose : close_ad st.adsDb item_id =
      ({ st.adsDb with ads := st.adsDb.ads.map (fun b =>
          if b.id = item_id && !b.is_closed then { b with is_closed := true }
          else b) },
       some { a with is_closed := true }) := by
    unfold close_ad
    rw [hfind]
  unfold close_ad_handler
  rw [hclose]
  simp only [delete_moderation_by_item, invalidate_by_item]
  refine ⟨trivial, trivial, ?_, ?_, ?_⟩
  · exact invalidate_moderation_list_none _ _ _
      (cacheGet_delete_self st.cache (item_predict_key item_id))
  · intro t ht
    exact invalidate_moderation_list_mem _ t ht _
  · intro hempty
    rw [hempty]
    rfl

/-- Second pending task (id 43) for the sample listing. -/
def secondPendingRow : ModerationResult :=
  ⟨43, 10, "pending", none, none, none, 0, none⟩

/-- State with two outstanding tasks 42 and 43 for listing 10 and both
their cache keys populated, plus the per-listing key. -/
def twoTasksState : SysState :=
  ⟨⟨[sampleAd], [sampleUser]⟩, [samplePendingRow, secondPendingRow], 44,
   [⟨item_predict_key 10, CacheEntry.prediction true 1, 600⟩,
    ⟨moderation_key 42, CacheEntry.moderation 42 "completed" (some false)
      (some 1), 1800⟩,
    ⟨moderation_key 43, CacheEntry.moderation 43 "failed" none none, 1800⟩],
   [], []⟩

/-- Witness for C7: closing listing 10 with outstanding tasks 42 and 43
deletes both rows and all three cache keys. -/
theorem close_listing_invalidation_witness :
    (close_ad_handler twoTasksState 10).1 = Except.ok ⟨10, "Ad closed"⟩ ∧
    (close_ad_handler twoTasksState 10).2.1.moderation =
      twoTasksState.moderation.filter (fun r => r.item_id ≠ 10) ∧
    cacheGet (close_ad_handler twoTasksState 10).2.1.cache
      (item_predict_key 10) = none ∧
    cacheGet (close_ad_handler twoTasksState 10).2.1.cache
      (moderation_key 42) = none ∧
    cacheGet (close_ad_handler twoTasksState 10).2.1.cache
      (moderation_key 43) = none := by
  have h := close_listing_invalidation twoTasksState 10 sampleAd rfl rfl
  exact ⟨h.1, h.2.1, h.2.2.1, h.2.2.2.1 42 (by decide), h.2.2.2.1 43 (by decide)⟩

/-! ## C6: pending results are never cached -/

/-- Check for a cached moderation record in status pending. -/
def CacheEntry.isPendingModeration : CacheEntry → Bool
  | CacheEntry.moderation _ s _ _ => s == "pending"
  | _ => false

/-- No cached pending moderation record anywhere in the keyspace. -/
def NoPendingCached (c : Cache) : Prop :=
  ∀ cell ∈ c, cell.val.isPendingModeration = false

/-- Writing a non-pending entry preserves the invariant. -/
theorem noPending_cacheSet (c : Cache) (k : String) (v : CacheEntry)
    (ttl : Nat) (hc : NoPendingCached c)
    (hv : v.isPendingModeration = false) :
    NoPendingCached (cacheSet c k v ttl) := by
  intro cell hcell
  rcases List.mem_cons.mp hcell with rfl | hmem
  · exact hv
  · exact hc _ (List.mem_filter.mp hmem).1

/-- Deleting preserves the invariant. -/
theorem noPending_cacheDelete (c : Cache) (k : String)
    (hc : NoPendingCached c) : NoPendingCached (cacheDelete c k) :=
  fun cell hcell => hc cell (List.mem_filter.mp hcell).1

/-- set_moderation preserves the invariant: a pending status is refused
and any other status yields a non-pending entry. -/
theorem noPending_set_moderation (c : Cache) (t : Int) (s : String)
    (iv : Option Bool) (p : Option Rat) (hc : NoPendingCached c) :
    NoPendingCached (set_moderation c t s iv p).1 := by
  unfold set_moderation
  by_cases hs : s = "pending"
  · simp only [hs, if_pos rfl]
    exact hc
  · rw [if_neg hs]
    exact noPending_cacheSet _ _ _ _ hc
      (by simp [CacheEntry.isPendingModeration, hs])

/-- set_by_item writes a prediction entry, never a moderation record. -/
theorem noPending_set_by_item (c : Cache) (i : Int) (v : Bool) (p : Rat)
    (hc : NoPendingCached c) : NoPendingCached (set_by_item c i v p).1 :=
  noPending_cacheSet _ _ _ _ hc rfl

/-- set_by_features writes a prediction entry as well. -/
theorem noPending_set_by_features (c : Cache) (v : Bool) (p : Rat)
    (vf : Bool) (q : Int) (d : String) (cat : Int) (hc : NoPendingCached c) :
    NoPendingCached (set_by_features c v p vf q d cat).1 :=
  noPending_cacheSet _ _ _ _ hc rfl

/-- The per-task invalidation loop only deletes. -/
theorem noPending_invalidate_moderation_list (ids : List Int) :
    ∀ c : Cache, NoPendingCached c →
      NoPendingCached (invalidate_moderation_list c ids).1 := by
  induction ids with
  | nil => exact fun c hc => hc
  | cons t rest ih =>
    intro c hc
    exact ih _ (noPending_cacheDelete _ _ hc)

/-- The worker preserves the invariant, by induction on the remaining
retry budget. -/
theorem noPending_process_message_fuel (k : Nat) :
    ∀ (model : Nat → Engine) (msg : KafkaMessage) (now : Nat) (st : SysState),
      MAX_RETRIES - msg.retry_count.getD 0 ≤ k →
      NoPendingCached st.cache →
      NoPendingCached (process_message model msg now st).1.cache := by
  induction k with
  | zero =>
    intro model msg now st hk hc
    rw [process_message]
    split
    · exact hc
    · split
      · simp only [set_by_item, set_moderation]
        simp only [String.reduceEq, if_false, ite_false, reduceIte]
        exact noPending_cacheSet _ _ _ _
          (noPending_cacheSet _ _ _ _ hc rfl) rfl
      · simp only []
        split
        · rename_i hlt
          exfalso
          simp only [MAX_RETRIES] at hk hlt
          omega
        · exact hc
  | succ k ih =>
    intro model msg now st hk hc
    rw [process_message]
    split
    · exact hc
    · split
      · simp only [set_by_item, set_moderation]
        simp only [String.reduceEq, if_false, ite_false, reduceIte]
        exact noPending_cacheSet _ _ _ _
          (noPending_cacheSet _ _ _ _ hc rfl) rfl
      · simp only []
        split
        · simp only []
          exact ih model
            { msg with retry_count := some (msg.retry_count.getD 0 + 1) }
            now st (by
              simp only [Option.getD_some, MAX_RETRIES] at hk ⊢
              omega) hc
        · exact hc

/-- The worker preserves the invariant. -/
theorem noPending_process_message (model : Nat → Engine)
    (msg : KafkaMessage) (now : Nat) (st : SysState)
    (hc : NoPendingCached st.cache) :
    NoPendingCached (process_message model msg now st).1.cache :=
  noPending_process_message_fuel MAX_RETRIES model msg now st
    (Nat.sub_le _ _) hc

/-- The result-read route preserves the invariant: its cold-read
population goes through set_moderation, whose pending guard refuses a
pending row. -/
theorem noPending_moderation_result (st : SysState) (task_id : Int)
    (hc : NoPendingCached st.cache) :
    NoPendingCached (moderation_result st task_id).2.1.cache := by
  unfold moderation_result
  split
  · exact hc
  · split
    · exact hc
    · rename_i m heq0
      split
      rename_i c ev heq
      have h2 := noPending_set_moderation st.cache m.id m.status
        m.is_violation m.probability hc
      rw [heq] at h2
      exact h2

/-- The enqueue route does not touch the cache. -/
theorem noPending_async_predict (st : SysState) (item_id : Int) (now : Nat)
    (hc : NoPendingCached st.cache) :
    NoPendingCached (async_predict st item_id now).2.1.cache := by
  unfold async_predict
  split
  · exact hc
  · exact hc

/-- The closure route only deletes cache keys. -/
theorem noPending_close_ad_handler (st : SysState) (item_id : Int)
    (hc : NoPendingCached st.cache) :
    NoPendingCached (close_ad_handler st item_id).2.1.cache := by
  unfold close_ad_handler
  split
  · exact hc
  · simp only [invalidate_by_item]
    exact noPending_invalidate_moderation_list _ _
      (noPending_cacheDelete _ _ hc)

/-- The synchronous per-listing route writes only prediction entries. -/
theorem noPending_simple_predict (model : Engine) (st : SysState)
    (item_id : Int) (hc : NoPendingCached st.cache) :
    NoPendingCached (simple_predict model st item_id).2.1.cache := by
  unfold simple_predict
  split
  · exact hc
  · split
    · exact hc
    · split
      · exact hc
      · simp only [set_by_item]
        exact noPending_cacheSet _ _ _ _ hc rfl

/-- The synchronous per-feature route writes only prediction entries. -/
theorem noPending_predict_handler (model : Engine) (st : SysState)
    (req : PredictRequest) (hc : NoPendingCached st.cache) :
    NoPendingCached (predict_handler model st req).2.1.cache := by
  unfold predict_handler
  split
  · exact hc
  · split
    · exact hc
    · simp only [set_by_features]
      exact noPending_cacheSet _ _ _ _ hc rfl

/-- Every single operation preserves the invariant. -/
theorem noPending_runOp (st : SysState) (op : Op)
    (hc : NoPendingCached st.cache) : NoPendingCached (runOp st op).cache := by
  cases op with
  | worker model msg now => exact noPending_process_message model msg now st hc
  | modResult task_id => exact noPending_moderation_result st task_id hc
  | asyncPredict item_id now => exact noPending_async_predict st item_id now hc
  | close item_id => exact noPending_close_ad_handler st item_id hc
  | simplePredict model item_id => exact noPending_simple_predict model st item_id hc
  | predict model req => exact noPending_predict_handler model st req hc

/-- C6: a record with status pending is never written under the per-task
terminal-result key (or any other key): starting from a keyspace with no
cached pending moderation record, no sequence of system operations -
worker deliveries, result reads (including the cold-read population of a
pending row), enqueues, closures and synchronous predictions - ever
caches one, because set_moderation returns without writing when
status = "pending". -/
theorem pending_never_cached (ops : List Op) : ∀ (st : SysState),
    NoPendingCached st.cache → NoPendingCached (runOps st ops).cache := by
  induction ops with
  | nil => exact fun st hc => hc
  | cons op rest ih =>
    intro st hc
    exact ih _ (noPending_runOp st op hc)

/-- Witness for C6: a sequence that reads the pending task 42 cold (the
row exists and is pending), completes it through the worker, reads it
again, then closes the listing - no pending record is ever cached. -/
theorem pending_never_cached_witness :
    NoPendingCached (runOps sampleState
      [Op.modResult 42, Op.worker (constModel (9/10)) sampleMsg 7,
       Op.modResult 42, Op.close 10]).cache :=
  pending_never_cached
    [Op.modResult 42, Op.worker (constModel (9/10)) sampleMsg 7,
     Op.modResult 42, Op.close 10] sampleState (fun _ h => nomatch h)

end Moderation
